import Mathlib

/-!
Verification development for the pong-ml-ai multiplayer backend
(`src/backend/sockets/socketHandlers.js` and the connection bookkeeping in
`src/backend/server.js`).

The JavaScript source is shallowly embedded: JS objects become structures,
the in-process `Map`s become association lists keyed by strings, timestamps
and game quantities become exact rationals, and the two sources of
nondeterminism (`Date.now()` and `Math.random()`) become explicit
parameters.  `setTimeout`/`setInterval` callbacks are modelled as separate
functions applied to the state at firing time, plus boolean/set flags for
the mere existence of a scheduled timer.

JavaScript numbers carry `NaN` and the infinities, and the input-validation
path (`GameEngine.validateInput`) is sensitive to their comparison
semantics, so paddle inputs and stored paddle positions use a dedicated
`JNum` type with IEEE-style comparisons; all other game quantities provably
stay finite and are plain rationals.
-/

/-! ### JavaScript numbers (for the input-validation path) -/

/-- A JavaScript number: a finite value, an infinity, or `NaN`. -/
inductive JNum where
  | fin (q : ℚ)
  | posInf
  | negInf
  | nan
deriving DecidableEq, Repr

/-- JS `<` on numbers: every comparison involving `NaN` is `false`. -/
def JNum.jlt : JNum → JNum → Bool
  | .nan, _ => false
  | _, .nan => false
  | .negInf, .negInf => false
  | .negInf, _ => true
  | _, .negInf => false
  | .posInf, _ => false
  | .fin _, .posInf => true
  | .fin a, .fin b => decide (a < b)

/-- JS `>` on numbers. -/
def JNum.jgt (x y : JNum) : Bool := JNum.jlt y x

/-- JS `Math.min`: `NaN` if either argument is `NaN`. -/
def JNum.jmin (x y : JNum) : JNum :=
  if x = .nan ∨ y = .nan then .nan
  else if JNum.jlt x y then x else y

/-- JS `Math.max`: `NaN` if either argument is `NaN`. -/
def JNum.jmax (x y : JNum) : JNum :=
  if x = .nan ∨ y = .nan then .nan
  else if JNum.jlt y x then x else y

/-- The finite part of a `JNum` (only ever read under a guard that
guarantees finiteness). -/
def JNum.toRat : JNum → ℚ
  | .fin q => q
  | _ => 0

/-- A raw JS value arriving on the wire as `data.paddleY`: either a number
or any non-number value (`undefined`, string, object, ...). -/
inductive JVal where
  | num (x : JNum)
  | other
deriving DecidableEq, Repr

/-! ### Association lists standing in for the JS `Map`s -/

/-- Models `Map.get`. -/
def lookupA {α : Type} (l : List (String × α)) (k : String) : Option α :=
  match l with
  | [] => none
  | (k', v) :: t => if k' = k then some v else lookupA t k

/-- Models `Map.set` (replace if present, append otherwise). -/
def insertA {α : Type} (l : List (String × α)) (k : String) (v : α) :
    List (String × α) :=
  match l with
  | [] => [(k, v)]
  | (k', v') :: t => if k' = k then (k, v) :: t else (k', v') :: insertA t k v

/-- Models `Map.delete`. -/
def eraseA {α : Type} (l : List (String × α)) (k : String) :
    List (String × α) :=
  l.filter (fun p => p.1 != k)

theorem lookupA_insertA_self {α : Type} (l : List (String × α)) (k : String)
    (v : α) : lookupA (insertA l k v) k = some v := by
  induction l with
  | nil => simp [insertA, lookupA]
  | cons h t ih =>
    by_cases hk : h.1 = k
    · simp [insertA, hk, lookupA]
    · simp [insertA, hk, lookupA, ih]

theorem lookupA_insertA_ne {α : Type} (l : List (String × α)) (k k' : String)
    (v : α) (h : k ≠ k') : lookupA (insertA l k v) k' = lookupA l k' := by
  induction l with
  | nil => simp [insertA, lookupA, h]
  | cons hd t ih =>
    by_cases hk : hd.1 = k
    · simp [insertA, hk, lookupA, h]
    · by_cases hk' : hd.1 = k'
      · simp [insertA, hk, lookupA, hk', Ne.symm h]
      · simp [insertA, hk, lookupA, hk', ih]

theorem lookupA_eraseA_self {α : Type} (l : List (String × α)) (k : String) :
    lookupA (eraseA l k) k = none := by
  induction l with
  | nil => simp [eraseA, lookupA]
  | cons h t ih =>
    by_cases hk : h.1 = k
    · simpa [eraseA, hk] using ih
    · simpa [eraseA, lookupA, hk] using ih

/-! ### Data model (socketHandlers.js / server.js objects) -/

/-- A player object built in the `matchmaking:join` handler from the DB row
plus the socket (`{userId, socketId, username, displayName, rating, socket}`);
`ready` is the flag later written by the `match:ready` handler (absent, i.e.
falsy, until then).  The raw socket handle itself is not modelled. -/
structure Player where
  userId : String
  socketId : String
  username : String
  displayName : String
  rating : ℤ
  ready : Bool := false
deriving DecidableEq, Repr

/-- Models `calculateRatingRange`'s result `{min, max}`. -/
structure RatingRange where
  min : ℤ
  max : ℤ
deriving DecidableEq, Repr

/-- A matchmaking queue entry: `{...player, joinedAt, ratingRange}`. -/
structure QueueEntry extends Player where
  joinedAt : ℚ
  ratingRange : RatingRange
deriving DecidableEq, Repr

/-- Match status strings `'starting' | 'playing' | 'paused' | 'completed'`. -/
inductive MatchStatus where
  | starting
  | playing
  | paused
  | completed
deriving DecidableEq, Repr

/-- One paddle: `{y, score}`.  `y` is a `JNum` because
`updatePlayerInput` can store `NaN` into it. -/
structure Paddle where
  y : JNum
  score : ℕ
deriving DecidableEq, Repr

structure Paddles where
  left : Paddle
  right : Paddle
deriving DecidableEq, Repr

structure Ball where
  x : ℚ
  y : ℚ
  vx : ℚ
  vy : ℚ
deriving DecidableEq, Repr

structure GameState where
  ball : Ball
  paddles : Paddles
  lastUpdate : ℚ
deriving DecidableEq, Repr

/-- The match object created by `MatchmakingService.createMatch` and stored
in `activeMatches`.  `currentMatch` models the dynamic field that
`handleMatchFound` writes onto whatever object its (mistaken) lookup in
`activeMatches` returns; it is absent (`none`) on creation. -/
structure GMatch where
  id : String
  roomId : String
  players : QueueEntry × QueueEntry
  status : MatchStatus
  createdAt : ℚ
  gameState : GameState
  currentMatch : Option String := none
deriving DecidableEq, Repr

/-- The engine-side copy made by `GameEngine.createMatch` via
`{...matchData, lastTick: Date.now(), tickInterval: null}`.  The spread is
shallow, so in JS `gameState` and the player objects are shared with the
`activeMatches` object while `status` is an independent copy; no settled
claim observes the sharing, so nested objects are modelled by value.
`tickActive` models whether `tickInterval` holds a live interval. -/
structure EngineMatch where
  id : String
  roomId : String
  players : QueueEntry × QueueEntry
  status : MatchStatus
  createdAt : ℚ
  gameState : GameState
  lastTick : ℚ
  tickActive : Bool
  winner : Option QueueEntry := none
deriving DecidableEq, Repr

/-- A `server.js` connection record `{socket, userId, currentMatch, joinedAt}`. -/
structure Connection where
  socketId : String
  userId : Option String
  currentMatch : Option String
  joinedAt : ℚ
deriving DecidableEq, Repr

/-- Observable emissions (`socket.emit` / room broadcasts) relevant to the
claims. -/
inductive Event where
  | errorMsg (toSocket : String) (message : String)
  | matchFound (toSocket : String) (matchId : String)
  | queuedAck (toSocket : String) (position : ℕ)
  | playerDisconnected (room : String) (username : String)
  | matchEnded (room : String) (reason : String) (winner : Option String)
deriving DecidableEq, Repr

def Event.isError : Event → Bool
  | .errorMsg _ _ => true
  | _ => false

/-! ### MatchmakingService (socketHandlers.js lines 20-161)

`searchTimeouts` keeps only which userIds have a scheduled expansion timer
(the timer handle itself carries no other observable state). -/

structure MMState where
  queue : List QueueEntry
  searchTimeouts : List String
deriving DecidableEq, Repr

/-- Models `calculateRatingRange(rating, timeInQueue)`: base range ±150 expanding
by ±50 per full 15000 ms in queue, clamped to [800, 3000]. -/
def calculateRatingRange (rating : ℤ) (timeInQueue : ℚ) : RatingRange :=
  let expansions : ℤ := ⌊timeInQueue / 15000⌋
  let currentRange : ℤ := 150 + expansions * 50
  { min := max 800 (rating - currentRange), max := min 3000 (rating + currentRange) }

/-- Models `removeFromQueue(userId)`: drop the queue entry and clear the expansion
timer for that identity. -/
def removeFromQueue (userId : String) (s : MMState) : MMState :=
  { queue := s.queue.filter (fun p => p.userId != userId),
    searchTimeouts := s.searchTimeouts.filter (fun u => u != userId) }

/-- Models `setExpandingSearch(userId)`: schedule (or replace) the expansion timer. -/
def setExpandingSearch (userId : String) (s : MMState) : MMState :=
  { s with searchTimeouts := userId :: s.searchTimeouts.filter (fun u => u != userId) }

/-- Models `MatchmakingService.createMatch(player1, player2)`: fresh match with the
initial game state (`matchId` comes from `uuidv4()`, passed in here). -/
def mmCreateMatch (freshId : String) (now : ℚ) (player1 player2 : QueueEntry) :
    GMatch :=
  { id := freshId
    roomId := "game-" ++ freshId
    players := (player1, player2)
    status := .starting
    createdAt := now
    gameState :=
      { ball := { x := 400, y := 300, vx := 5, vy := 3 }
        paddles :=
          { left := { y := .fin 250, score := 0 }
            right := { y := .fin 250, score := 0 } }
        lastUpdate := now } }

/-- The compatibility test inside `findMatch`'s loop: skip self, then
`playerInRange || opponentInRange`. -/
def findMatchTest (player : QueueEntry) (opp : QueueEntry) : Bool :=
  opp.userId != player.userId &&
    ((decide (opp.rating ≥ player.ratingRange.min) &&
      decide (opp.rating ≤ player.ratingRange.max)) ||
     (decide (player.rating ≥ opp.ratingRange.min) &&
      decide (player.rating ≤ opp.ratingRange.max)))

/-- Models `findMatch(player)`: linear scan of the queue in insertion order for the
first compatible opponent; on a hit both entries (and their timers) are
removed and a match object is created. -/
def findMatch (freshId : String) (now : ℚ) (player : QueueEntry) (s : MMState) :
    Option GMatch × MMState :=
  match s.queue.find? (findMatchTest player) with
  | none => (none, s)
  | some opp =>
    let s := removeFromQueue player.userId s
    let s := removeFromQueue opp.userId s
    (some (mmCreateMatch freshId now player opp), s)

/-- Models `addToQueue(player)`: idempotent re-join, entry with the initial ±150
range, expansion timer scheduled, then an immediate `findMatch`. -/
def addToQueue (freshId : String) (now : ℚ) (player : Player) (s : MMState) :
    Option GMatch × MMState :=
  let s := removeFromQueue player.userId s
  let entry : QueueEntry :=
    { toPlayer := player, joinedAt := now,
      ratingRange := calculateRatingRange player.rating 0 }
  let s := { s with queue := s.queue ++ [entry] }
  let s := setExpandingSearch player.userId s
  findMatch freshId now entry s

/-! ### GameEngine (socketHandlers.js lines 163-317) -/

structure GameEngine where
  -- this.matches (field renamed: `matches` is a Lean keyword)
  matchesMap : List (String × EngineMatch)
deriving DecidableEq, Repr

/-- Models `GameEngine.createMatch(matchData)` followed by `startGameLoop`: stores
the shallow copy `{...matchData, lastTick: Date.now(), tickInterval: null}`
and then installs the 60 Hz interval (`tickActive := true`). -/
def engineCreateMatch (matchData : GMatch) (now : ℚ) (E : GameEngine) :
    GameEngine :=
  { matchesMap := insertA E.matchesMap matchData.id
      { id := matchData.id
        roomId := matchData.roomId
        players := matchData.players
        status := matchData.status
        createdAt := matchData.createdAt
        gameState := matchData.gameState
        lastTick := now
        tickActive := true
        winner := none } }

/-- Models `GameEngine.endMatch(matchId)`: mark completed, clear the tick interval,
record `winner` from the score comparison `leftScore > rightScore ?
players[0] : players[1]`. -/
def endMatch (matchId : String) (E : GameEngine) : GameEngine :=
  match lookupA E.matchesMap matchId with
  | none => E
  | some m =>
    let leftScore := m.gameState.paddles.left.score
    let rightScore := m.gameState.paddles.right.score
    { matchesMap := insertA E.matchesMap matchId
        { m with
          status := .completed
          tickActive := false
          winner := some (if leftScore > rightScore then m.players.1 else m.players.2) } }

/-- Models `GameEngine.removeMatch(matchId)`: clear the interval and delete the
entry. -/
def removeMatch (matchId : String) (E : GameEngine) : GameEngine :=
  { matchesMap := eraseA E.matchesMap matchId }

/-- The in-band test of `handlePaddleCollision`:
`ball.y >= paddle.y - 50 && ball.y <= paddle.y + 50` under JS comparison
semantics — false whenever the stored paddle `y` is `NaN` or an infinity. -/
def paddleBand (ballY : ℚ) : JNum → Bool
  | .fin py => decide (py - 50 ≤ ballY) && decide (ballY ≤ py + 50)
  | _ => false

/-- Models `GameEngine.handlePaddleCollision(match)`: left paddle test then right
paddle test, each flipping `vx` and recomputing `vy` from the offset to the
paddle centre.  `toRat` is exact here: `paddleBand` only passes for finite
paddle positions. -/
def handlePaddleCollision (gs : GameState) : GameState :=
  let b0 := gs.ball
  let b1 :=
    if decide (b0.x ≤ 20) && decide (b0.x ≥ 10) && paddleBand b0.y gs.paddles.left.y then
      { b0 with vx := |b0.vx|,
                vy := -((gs.paddles.left.y.toRat - b0.y) / 50) * 5 }
    else b0
  let b2 :=
    if decide (b1.x ≥ 780) && decide (b1.x ≤ 790) && paddleBand b1.y gs.paddles.right.y then
      { b1 with vx := -|b1.vx|,
                vy := -((gs.paddles.right.y.toRat - b1.y) / 50) * 5 }
    else b1
  { gs with ball := b2 }

/-- Models `GameEngine.resetBall(match)`: recentre; `r1`, `r2` are the two
`Math.random()` draws (`vx = r1 > 0.5 ? 5 : -5`, `vy = (r2 - 0.5) * 6`). -/
def resetBall (r1 r2 : ℚ) (gs : GameState) : GameState :=
  { gs with ball :=
      { x := 400, y := 300,
        vx := if r1 > 1/2 then 5 else -5,
        vy := (r2 - 1/2) * 6 } }

/-- The physics part of `updateGameState` (lines 199-220): move the ball by
`v * deltaTime * 60`, bounce off the horizontal walls, resolve paddle
collisions, then score-and-reset. -/
def tickPhysics (gs : GameState) (deltaTime r1 r2 : ℚ) : GameState :=
  let b := gs.ball
  let b := { b with x := b.x + b.vx * deltaTime * 60, y := b.y + b.vy * deltaTime * 60 }
  let b := if b.y ≤ 10 ∨ b.y ≥ 590 then
      { b with vy := -b.vy, y := max 10 (min 590 b.y) }
    else b
  let gs1 := handlePaddleCollision { gs with ball := b }
  if gs1.ball.x ≤ 0 then
    resetBall r1 r2
      { gs1 with paddles :=
          { gs1.paddles with right := { gs1.paddles.right with score := gs1.paddles.right.score + 1 } } }
  else if gs1.ball.x ≥ 800 then
    resetBall r1 r2
      { gs1 with paddles :=
          { gs1.paddles with left := { gs1.paddles.left with score := gs1.paddles.left.score + 1 } } }
  else gs1

/-- Line 227, `match.gameState.lastUpdate = now`, executed on the match
object after the possible `endMatch` call (which never deletes the entry). -/
def setLastUpdate (matchId : String) (now : ℚ) (E : GameEngine) : GameEngine :=
  match lookupA E.matchesMap matchId with
  | none => E
  | some m =>
    { matchesMap := insertA E.matchesMap matchId
        { m with gameState := { m.gameState with lastUpdate := now } } }

/-- Models `GameEngine.updateGameState(matchId)` — the per-match tick callback.
`now` is the `Date.now()` read; missing matches and matches whose engine
status is not `'playing'` are skipped silently. -/
def updateGameState (matchId : String) (now r1 r2 : ℚ) (E : GameEngine) :
    GameEngine :=
  match lookupA E.matchesMap matchId with
  | none => E
  | some m =>
    if m.status = MatchStatus.playing then
      let deltaTime := (now - m.lastTick) / 1000
      let gs := tickPhysics m.gameState deltaTime r1 r2
      let E1 : GameEngine :=
        { matchesMap := insertA E.matchesMap matchId { m with gameState := gs, lastTick := now } }
      let E2 :=
        if gs.paddles.left.score ≥ 11 ∨ gs.paddles.right.score ≥ 11 then
          endMatch matchId E1
        else E1
      setLastUpdate matchId now E2
    else E

/-- Models `GameEngine.validateInput(input)`: only the `typeof` check and the
range comparisons — `NaN` passes both comparisons. -/
def validateInput (input : JVal) : Bool :=
  match input with
  | .other => false
  | .num x => if JNum.jlt x (.fin 50) || JNum.jgt x (.fin 550) then false else true

/-- Models `GameEngine.updatePlayerInput(matchId, playerId, input)`: reject when the
match is missing or not playing, when `playerId` is not a participant, or
when `validateInput` fails; otherwise store
`Math.max(50, Math.min(550, input.paddleY))` into that player's paddle. -/
def updatePlayerInput (matchId playerId : String) (input : JVal)
    (E : GameEngine) : Bool × GameEngine :=
  match lookupA E.matchesMap matchId with
  | none => (false, E)
  | some m =>
    if m.status = MatchStatus.playing then
      -- players.findIndex(p => p.userId === playerId)
      let playerIndex : Option (Fin 2) :=
        if m.players.1.userId = playerId then some 0
        else if m.players.2.userId = playerId then some 1
        else none
      match playerIndex with
      | none => (false, E)
      | some i =>
        if validateInput input then
          match input with
          | .other => (false, E)  -- unreachable: validateInput rejects non-numbers
          | .num x =>
            let newY := JNum.jmax (.fin 50) (JNum.jmin (.fin 550) x)
            let gs := m.gameState
            let gs :=
              if i = (0 : Fin 2) then
                { gs with paddles := { gs.paddles with left := { gs.paddles.left with y := newY } } }
              else
                { gs with paddles := { gs.paddles with right := { gs.paddles.right with y := newY } } }
            (true, { matchesMap := insertA E.matchesMap matchId { m with gameState := gs } })
        else (false, E)
    else (false, E)

/-! ### Server-level state and the socket handlers
(server.js lines 175-204, socketHandlers.js lines 343-588) -/

structure ServerState where
  activeConnections : List (String × Connection)
  activeMatches : List (String × GMatch)
  engine : GameEngine
  mm : MMState
  events : List Event
deriving DecidableEq, Repr

/-- A new socket connection (server.js lines 181-186: record with
`userId: null, currentMatch: null`) immediately followed by the
`setupSocketEvents` preamble (socketHandlers.js lines 349-352) that binds
the authenticated `socket.userId` onto the record. -/
def registerConnection (socketId userId : String) (now : ℚ)
    (s : ServerState) : ServerState :=
  { s with
    activeConnections :=
      insertA s.activeConnections socketId
        { socketId := socketId, userId := some userId, currentMatch := none,
          joinedAt := now } }

/-- The per-player body of `handleMatchFound`'s `forEach` (lines 533-551).
NOTE (faithful to the source): the connection lookup is
`activeMatches.get(player.socketId)` — the wrong map — and
`activeConnections` is not even in scope inside `handleMatchFound`. -/
def matchFoundPerPlayer (mtch : GMatch) (p : QueueEntry) (s : ServerState) :
    ServerState :=
  let s :=
    match lookupA s.activeMatches p.socketId with
    | some c =>
      { s with
        activeMatches :=
          insertA s.activeMatches p.socketId
            { c with currentMatch := some mtch.id } }
    | none => s
  { s with events := s.events ++ [.matchFound p.socketId mtch.id] }

/-- Models `handleMatchFound(match, io, activeMatches)`: store the match, hand it
to the engine, then run the per-player update/notification.  The 2-second
countdown `setTimeout` emits no claim-relevant state and is omitted. -/
def handleMatchFoundOp (mtch : GMatch) (now : ℚ) (s : ServerState) :
    ServerState :=
  let s := { s with activeMatches := insertA s.activeMatches mtch.id mtch }
  let s := { s with engine := engineCreateMatch mtch now s.engine }
  let s := matchFoundPerPlayer mtch mtch.players.1 s
  matchFoundPerPlayer mtch mtch.players.2 s

/-- Result of the `game:input` handler as seen by the client. -/
inductive InputOutcome where
  | notInMatchError
  | invalidInputError
  | ok
deriving DecidableEq, Repr

/-- The `game:input` handler (lines 432-448): `!connection?.currentMatch`
rejects with "Not in a match"; otherwise the input is delegated to
`GameEngine.updatePlayerInput` with the connection's `currentMatch`. -/
def onGameInput (socketId userId : String) (data : JVal) (s : ServerState) :
    InputOutcome × ServerState :=
  match lookupA s.activeConnections socketId with
  | none =>
    (.notInMatchError,
     { s with events := s.events ++ [.errorMsg socketId "Not in a match"] })
  | some conn =>
    match conn.currentMatch with
    | none =>
      (.notInMatchError,
       { s with events := s.events ++ [.errorMsg socketId "Not in a match"] })
    | some matchId =>
      let r := updatePlayerInput matchId userId data s.engine
      if r.1 then (.ok, { s with engine := r.2 })
      else
        (.invalidInputError,
         { s with engine := r.2,
                  events := s.events ++ [.errorMsg socketId "Invalid game input"] })

/-- Result of the `matchmaking:join` handler as seen by the client. -/
inductive JoinOutcome where
  | userNotFound
  | matched (m : GMatch)
  | queuedOk (position : ℕ)
deriving DecidableEq, Repr

/-- The `matchmaking:join` handler (lines 383-422).  `userRow` is the DB
lookup result for `socket.userId` (the user's identity/rating provider);
when found, the player object is built with the live `socket.id` and
`addToQueue` runs — with no check whatsoever of `currentMatch` or of
membership in an active match. -/
def onMatchmakingJoin (freshId : String) (now : ℚ) (socketId : String)
    (userRow : Option Player) (s : ServerState) : JoinOutcome × ServerState :=
  match userRow with
  | none =>
    (.userNotFound,
     { s with events := s.events ++ [.errorMsg socketId "User not found"] })
  | some user =>
    let player : Player := { user with socketId := socketId }
    let r := addToQueue freshId now player s.mm
    let s := { s with mm := r.2 }
    match r.1 with
    | some mtch => (.matched mtch, handleMatchFoundOp mtch now s)
    | none =>
      (.queuedOk r.2.queue.length,
       { s with events := s.events ++ [.queuedAck socketId r.2.queue.length] })

/-- Models `handlePlayerDisconnect(match, disconnectedSocket, activeMatches, io)`
(lines 564-571): broadcast `player:disconnected` to the room, set the
match's status to `'paused'`.  The 30-second `setTimeout` body is
`graceFire` below (it captures the disconnected socket's id).  `mtch` is
the object the caller read from `activeMatches`, so the status write lands
on that entry; `disconnectedUsername` is `disconnectedSocket.username`. -/
def handlePlayerDisconnect (mtch : GMatch)
    (disconnectedUsername : String) (s : ServerState) : ServerState :=
  let s :=
    { s with
      events := s.events ++ [Event.playerDisconnected mtch.roomId disconnectedUsername] }
  { s with
    activeMatches :=
      insertA s.activeMatches mtch.id { mtch with status := .paused } }

/-- The 30-second grace `setTimeout` callback (lines 574-587): if the match
is still present and still `'paused'`, end it in the engine, remove it from
both registries, and broadcast `match:ended` with
`reason: 'player_disconnect'` and the first player whose socket differs
from the disconnected one as winner.  `mtch` and `disconnectedSocketId`
are the closure captures. -/
def graceFire (mtch : GMatch) (disconnectedSocketId : String)
    (s : ServerState) : ServerState :=
  match lookupA s.activeMatches mtch.id with
  | none => s
  | some currentMatch =>
    if currentMatch.status = MatchStatus.paused then
      let s := { s with engine := removeMatch mtch.id (endMatch mtch.id s.engine) }
      let s := { s with activeMatches := eraseA s.activeMatches mtch.id }
      let winner : Option String :=
        if mtch.players.1.socketId ≠ disconnectedSocketId then
          some mtch.players.1.username
        else if mtch.players.2.socketId ≠ disconnectedSocketId then
          some mtch.players.2.username
        else none
      { s with events :=
          s.events ++ [.matchEnded mtch.roomId "player_disconnect" winner] }
    else s

/-! ### Concrete fixtures used by the closed theorems and witnesses -/

def samplePlayer1 : Player :=
  { userId := "u1", socketId := "s1", username := "alice",
    displayName := "Alice", rating := 1200 }

def samplePlayer2 : Player :=
  { userId := "u2", socketId := "s2", username := "bob",
    displayName := "Bob", rating := 1300 }

def sampleEntry1 : QueueEntry :=
  { toPlayer := samplePlayer1, joinedAt := 0,
    ratingRange := { min := 1050, max := 1350 } }

def sampleEntry2 : QueueEntry :=
  { toPlayer := samplePlayer2, joinedAt := 0,
    ratingRange := { min := 1150, max := 1450 } }

theorem sampleEntry1_range_initial :
    sampleEntry1.ratingRange = calculateRatingRange 1200 0 := by
  simp [sampleEntry1, calculateRatingRange]

theorem sampleEntry2_range_initial :
    sampleEntry2.ratingRange = calculateRatingRange 1300 0 := by
  simp [sampleEntry2, calculateRatingRange]

/-- The match `MatchmakingService.createMatch` would build for the two
sample players (status `'starting'`). -/
def sampleMatch : GMatch := mmCreateMatch "m1" 0 sampleEntry1 sampleEntry2

/-- The same match after both ready-signals (status `'playing'`). -/
def samplePlayingGMatch : GMatch := { sampleMatch with status := .playing }

/-- An engine-side match entry in the `'playing'` state with a live tick
interval. -/
def samplePlayingMatch : EngineMatch :=
  { id := "m1", roomId := "game-m1", players := (sampleEntry1, sampleEntry2),
    status := .playing, createdAt := 0, gameState := sampleMatch.gameState,
    lastTick := 0, tickActive := true }

def samplePlayingEngine : GameEngine :=
  { matchesMap := [("m1", samplePlayingMatch)] }

def emptyServer : ServerState :=
  { activeConnections := [], activeMatches := [], engine := { matchesMap := [] },
    mm := { queue := [], searchTimeouts := [] }, events := [] }

/-- Two freshly registered, authenticated connections. -/
def sampleS0 : ServerState :=
  registerConnection "s2" "u2" 0 (registerConnection "s1" "u1" 0 emptyServer)

/-- The state right after the queue pairing: `handleMatchFound` has run for
the sample match. -/
def sampleAfterFound : ServerState := handleMatchFoundOp sampleMatch 0 sampleS0

/-- Variant of `sampleAfterFound` with the match moved to `'playing'` in both
registries (as the `match:ready` path intends). -/
def samplePlayingServer : ServerState :=
  { sampleAfterFound with
    activeMatches := insertA sampleAfterFound.activeMatches "m1" samplePlayingGMatch,
    engine := samplePlayingEngine }

/-- A server state in the middle of a disconnect grace period: the match is
`'paused'` in `activeMatches`, the engine entry still holds a live tick
interval, and only the second player's connection is left. -/
def samplePausedServer : ServerState :=
  { activeConnections :=
      [("s2", { socketId := "s2", userId := some "u2", currentMatch := none,
                joinedAt := 0 })],
    activeMatches := [("m1", { sampleMatch with status := .paused })],
    engine := samplePlayingEngine,
    mm := { queue := [], searchTimeouts := [] },
    events := [] }

/-! ### C1 -/

/-- C1 (code bug): after the queue pairing runs `handleMatchFound` for two
freshly registered connections, neither participant's connection record has
its `currentMatch` field set (the function looks connections up in the
`activeMatches` map, keyed by socket id, and is not even passed
`activeConnections`), so a subsequent `game:input` from a participant is
rejected with the "Not in a match" error instead of being delegated to
`updatePlayerInput`. -/
theorem C1_queue_pairing_never_binds_currentMatch :
    (lookupA sampleAfterFound.activeConnections "s1").map
        (fun c => c.currentMatch) = some none ∧
    (lookupA sampleAfterFound.activeConnections "s2").map
        (fun c => c.currentMatch) = some none ∧
    sampleAfterFound.activeConnections = sampleS0.activeConnections ∧
    (onGameInput "s1" "u1" (JVal.num (JNum.fin 300)) sampleAfterFound).1 =
      InputOutcome.notInMatchError ∧
    Event.errorMsg "s1" "Not in a match" ∈
      (onGameInput "s1" "u1" (JVal.num (JNum.fin 300)) sampleAfterFound).2.events := by
  decide

/-! ### C2 -/

/-- C2 (code bug): `updatePlayerInput` on a Playing match with a
participant identity accepts `paddleY = NaN` — `typeof NaN` is `'number'`
and both range comparisons are false for `NaN` — returning `true` and
storing `NaN` (the value of `Math.max(50, Math.min(550, NaN))`) into the
paddle position, although the claim requires every non-finite `paddleY` to
be rejected with no state change. -/
theorem C2_applyInput_accepts_NaN :
    validateInput (JVal.num JNum.nan) = true ∧
    (updatePlayerInput "m1" "u1" (JVal.num JNum.nan) samplePlayingEngine).1 = true ∧
    (lookupA (updatePlayerInput "m1" "u1" (JVal.num JNum.nan) samplePlayingEngine).2.matchesMap
        "m1").map (fun mm => mm.gameState.paddles.left.y) = some JNum.nan := by
  decide

/-! ### C3 -/

/-- C3 (code bug): with the sample match `'paused'` and its 30-second grace
timer pending, a new connection authenticating with the disconnected
identity `"u1"` is registered with `currentMatch := none`, changes neither
registry nor the engine (so the match stays `'paused'` and nothing cancels
the timer), and the grace timeout still ends the match with the other
participant as reported winner — no reconnection/rebind path exists in the
code. -/
theorem C3_reconnect_does_not_resume :
    (lookupA (registerConnection "s3" "u1" 5 samplePausedServer).activeConnections
        "s3").map (fun c => c.currentMatch) = some none ∧
    (registerConnection "s3" "u1" 5 samplePausedServer).activeMatches =
      samplePausedServer.activeMatches ∧
    (registerConnection "s3" "u1" 5 samplePausedServer).engine =
      samplePausedServer.engine ∧
    (lookupA (registerConnection "s3" "u1" 5 samplePausedServer).activeMatches
        "m1").map (fun m => m.status) = some MatchStatus.paused ∧
    lookupA (graceFire sampleMatch "s1"
        (registerConnection "s3" "u1" 5 samplePausedServer)).activeMatches "m1" = none ∧
    Event.matchEnded "game-m1" "player_disconnect" (some "bob") ∈
      (graceFire sampleMatch "s1"
        (registerConnection "s3" "u1" 5 samplePausedServer)).events := by
  decide

/-! ### C10 -/

/-- C10 (confirmed): for every `endMatch` call on an existing match,
whatever the reason it was reached for, the recorded winner is
`players[0]` exactly when the left score strictly exceeds the right score
and `players[1]` otherwise; in particular equal scores record `players[1]`
and the winner is never null. -/
theorem C10_endMatch_winner_by_score (E : GameEngine) (matchId : String)
    (m : EngineMatch) (hm : lookupA E.matchesMap matchId = some m) :
    (lookupA (endMatch matchId E).matchesMap matchId).bind (fun mm => mm.winner) =
      some (if m.gameState.paddles.left.score > m.gameState.paddles.right.score
            then m.players.1 else m.players.2) ∧
    (m.gameState.paddles.left.score = m.gameState.paddles.right.score →
      (lookupA (endMatch matchId E).matchesMap matchId).bind (fun mm => mm.winner) =
        some m.players.2) := by
  constructor
  · simp only [endMatch, hm, lookupA_insertA_self, Option.some_bind]
  · intro hEq
    simp only [endMatch, hm, lookupA_insertA_self, Option.some_bind, hEq,
      lt_irrefl, if_false]

/-- Witness for C10 at a concrete engine state (scores 0-0: the second
participant is recorded as winner). -/
theorem C10_endMatch_winner_by_score_witness :
    (lookupA samplePlayingEngine.matchesMap "m1" = some samplePlayingMatch) ∧
    (lookupA (endMatch "m1" samplePlayingEngine).matchesMap "m1").bind
        (fun mm => mm.winner) = some sampleEntry2 := by
  refine ⟨by decide, ?_⟩
  have h := (C10_endMatch_winner_by_score samplePlayingEngine "m1"
      samplePlayingMatch (by decide)).2 (by decide)
  exact h

/-! ### C6 -/

/-- A ball strictly between the paddle engagement bands passes
`handlePaddleCollision` unchanged. -/
theorem handlePaddleCollision_no_hit (gs : GameState)
    (hx1 : 20 < gs.ball.x) (hx2 : gs.ball.x < 780) :
    handlePaddleCollision gs = gs := by
  simp only [handlePaddleCollision]
  split_ifs with h1 h2 h2
  · simp only [Bool.and_eq_true, decide_eq_true_eq] at h1
    linarith [h1.1.1]
  · simp only [Bool.and_eq_true, decide_eq_true_eq] at h1
    linarith [h1.1.1]
  · simp only [Bool.and_eq_true, decide_eq_true_eq] at h2
    linarith [h2.1.1]
  · rfl

/-- When the advanced ball position touches neither wall, neither paddle
band, and neither goal line, `tickPhysics` is exactly the linear advance
`position += velocity * deltaTime * 60`. -/
theorem tickPhysics_no_collision (gs : GameState) (dt r1 r2 : ℚ)
    (hy1 : 10 < gs.ball.y + gs.ball.vy * dt * 60)
    (hy2 : gs.ball.y + gs.ball.vy * dt * 60 < 590)
    (hx1 : 20 < gs.ball.x + gs.ball.vx * dt * 60)
    (hx2 : gs.ball.x + gs.ball.vx * dt * 60 < 780) :
    tickPhysics gs dt r1 r2 =
      { gs with ball :=
          { x := gs.ball.x + gs.ball.vx * dt * 60,
            y := gs.ball.y + gs.ball.vy * dt * 60,
            vx := gs.ball.vx, vy := gs.ball.vy } } := by
  have hwall : ¬(gs.ball.y + gs.ball.vy * dt * 60 ≤ 10 ∨
      gs.ball.y + gs.ball.vy * dt * 60 ≥ 590) := by
    push_neg
    exact ⟨by linarith, by linarith⟩
  have hgoal1 : ¬(gs.ball.x + gs.ball.vx * dt * 60 ≤ 0) := by linarith
  have hgoal2 : ¬(gs.ball.x + gs.ball.vx * dt * 60 ≥ 800) := by linarith
  simp only [tickPhysics]
  rw [if_neg hwall]
  rw [handlePaddleCollision_no_hit _ hx1 hx2]
  rw [if_neg hgoal1, if_neg hgoal2]

/-- C6 (confirmed): on a match whose engine status is Playing, a tick
advances the ball by `velocity * elapsedSeconds * 60` where
`elapsedSeconds = (now - lastTick)/1000` (velocity components unchanged,
assuming the advanced position hits no wall, paddle, or goal), and on a
match whose status is not Playing the tick leaves the engine state
entirely unchanged — a silent skip. -/
theorem C6_tick_advances_ball (E : GameEngine) (matchId : String)
    (m : EngineMatch) (now r1 r2 : ℚ)
    (hm : lookupA E.matchesMap matchId = some m) :
    (m.status ≠ MatchStatus.playing → updateGameState matchId now r1 r2 E = E) ∧
    (m.status = MatchStatus.playing →
      10 < m.gameState.ball.y + m.gameState.ball.vy * ((now - m.lastTick) / 1000) * 60 →
      m.gameState.ball.y + m.gameState.ball.vy * ((now - m.lastTick) / 1000) * 60 < 590 →
      20 < m.gameState.ball.x + m.gameState.ball.vx * ((now - m.lastTick) / 1000) * 60 →
      m.gameState.ball.x + m.gameState.ball.vx * ((now - m.lastTick) / 1000) * 60 < 780 →
      (lookupA (updateGameState matchId now r1 r2 E).matchesMap matchId).map
          (fun mm => mm.gameState.ball) =
        some { x := m.gameState.ball.x + m.gameState.ball.vx * ((now - m.lastTick) / 1000) * 60,
               y := m.gameState.ball.y + m.gameState.ball.vy * ((now - m.lastTick) / 1000) * 60,
               vx := m.gameState.ball.vx, vy := m.gameState.ball.vy }) := by
  constructor
  · intro hst
    simp only [updateGameState, hm, if_neg hst]
  · intro hst hy1 hy2 hx1 hx2
    have hphys := tickPhysics_no_collision m.gameState ((now - m.lastTick) / 1000) r1 r2 hy1 hy2 hx1 hx2
    simp only [updateGameState, hm, if_pos hst, hphys]
    by_cases hsc : m.gameState.paddles.left.score ≥ 11 ∨ m.gameState.paddles.right.score ≥ 11
    · simp only [if_pos hsc, endMatch, setLastUpdate, lookupA_insertA_self,
        Option.map_some']
    · simp only [if_neg hsc, setLastUpdate, lookupA_insertA_self,
        Option.map_some']

/-! ### C7 -/

/-- One tick changes the score pair by at most one increment on one side
(wall/paddle branches never touch scores; the two goal branches are
mutually exclusive). -/
theorem tickPhysics_scores (gs : GameState) (dt r1 r2 : ℚ) :
    ((tickPhysics gs dt r1 r2).paddles.left.score = gs.paddles.left.score ∧
     (tickPhysics gs dt r1 r2).paddles.right.score = gs.paddles.right.score) ∨
    ((tickPhysics gs dt r1 r2).paddles.left.score = gs.paddles.left.score + 1 ∧
     (tickPhysics gs dt r1 r2).paddles.right.score = gs.paddles.right.score) ∨
    ((tickPhysics gs dt r1 r2).paddles.left.score = gs.paddles.left.score ∧
     (tickPhysics gs dt r1 r2).paddles.right.score = gs.paddles.right.score + 1) := by
  simp only [tickPhysics, resetBall, handlePaddleCollision]
  split_ifs <;> simp

/-- C7 (confirmed): on a Playing match with both scores at most 10, a tick
that brings a side's score to 11 marks the match Completed with that
side's participant recorded as winner, and a tick after which both scores
are still at most 10 leaves the match Playing. -/
theorem C7_first_to_eleven_wins (E : GameEngine) (matchId : String)
    (m : EngineMatch) (now r1 r2 : ℚ)
    (hm : lookupA E.matchesMap matchId = some m)
    (hst : m.status = MatchStatus.playing)
    (hl : m.gameState.paddles.left.score ≤ 10)
    (hr : m.gameState.paddles.right.score ≤ 10) :
    ∃ mm, lookupA (updateGameState matchId now r1 r2 E).matchesMap matchId = some mm ∧
      (mm.gameState.paddles.left.score = 11 →
        mm.status = MatchStatus.completed ∧ mm.winner = some m.players.1) ∧
      (mm.gameState.paddles.right.score = 11 →
        mm.status = MatchStatus.completed ∧ mm.winner = some m.players.2) ∧
      (mm.gameState.paddles.left.score ≤ 10 → mm.gameState.paddles.right.score ≤ 10 →
        mm.status = MatchStatus.playing) := by
  have hscores := tickPhysics_scores m.gameState ((now - m.lastTick) / 1000) r1 r2
  by_cases hsc :
      (tickPhysics m.gameState ((now - m.lastTick) / 1000) r1 r2).paddles.left.score ≥ 11 ∨
      (tickPhysics m.gameState ((now - m.lastTick) / 1000) r1 r2).paddles.right.score ≥ 11
  · simp only [updateGameState, hm, if_pos hst, if_pos hsc, endMatch, setLastUpdate,
      lookupA_insertA_self]
    refine ⟨_, rfl, ?_, ?_, ?_⟩
    · intro h11
      dsimp only at h11
      refine ⟨rfl, ?_⟩
      have hgt : (tickPhysics m.gameState ((now - m.lastTick) / 1000) r1 r2).paddles.left.score >
          (tickPhysics m.gameState ((now - m.lastTick) / 1000) r1 r2).paddles.right.score := by
        rcases hscores with ⟨h1, h2⟩ | ⟨h1, h2⟩ | ⟨h1, h2⟩ <;> omega
      dsimp only
      simp only [if_pos hgt]
    · intro h11
      dsimp only at h11
      refine ⟨rfl, ?_⟩
      have hngt : ¬((tickPhysics m.gameState ((now - m.lastTick) / 1000) r1 r2).paddles.left.score >
          (tickPhysics m.gameState ((now - m.lastTick) / 1000) r1 r2).paddles.right.score) := by
        rcases hscores with ⟨h1, h2⟩ | ⟨h1, h2⟩ | ⟨h1, h2⟩ <;> omega
      dsimp only
      simp only [if_neg hngt]
    · intro h10l h10r
      dsimp only at h10l h10r
      exact absurd hsc (by omega)
  · simp only [updateGameState, hm, if_pos hst, if_neg hsc, setLastUpdate,
      lookupA_insertA_self]
    refine ⟨_, rfl, ?_, ?_, ?_⟩
    · intro h11
      dsimp only at h11
      exact absurd h11 (by omega)
    · intro h11
      dsimp only at h11
      exact absurd h11 (by omega)
    · intro _ _
      exact hst

/-- Witness for C6 at the claim's concrete instance: ball at (400,300) with
velocity (5,3), elapsed 1/60 s, no collision, ends at (405,303). -/
theorem C6_tick_advances_ball_witness :
    (lookupA samplePlayingEngine.matchesMap "m1" = some samplePlayingMatch) ∧
    (lookupA (updateGameState "m1" (1000/60) 0 0 samplePlayingEngine).matchesMap "m1").map
        (fun mm => mm.gameState.ball) = some { x := 405, y := 303, vx := 5, vy := 3 } := by
  have hm : lookupA samplePlayingEngine.matchesMap "m1" = some samplePlayingMatch := by
    decide
  have h := (C6_tick_advances_ball samplePlayingEngine "m1" samplePlayingMatch
      (1000/60) 0 0 hm).2 rfl
    (by norm_num [samplePlayingMatch, sampleMatch, mmCreateMatch])
    (by norm_num [samplePlayingMatch, sampleMatch, mmCreateMatch])
    (by norm_num [samplePlayingMatch, sampleMatch, mmCreateMatch])
    (by norm_num [samplePlayingMatch, sampleMatch, mmCreateMatch])
  refine ⟨hm, ?_⟩
  rw [h]
  norm_num [samplePlayingMatch, sampleMatch, mmCreateMatch]

/-- An engine match at score 10-5 with the ball one tick from crossing the
right goal line. -/
def sampleC7Match : EngineMatch :=
  { samplePlayingMatch with
    gameState :=
      { ball := { x := 795, y := 300, vx := 6, vy := 0 },
        paddles := { left := { y := .fin 250, score := 10 },
                     right := { y := .fin 250, score := 5 } },
        lastUpdate := 0 } }

def sampleC7Engine : GameEngine := { matchesMap := [("m1", sampleC7Match)] }

/-- Witness for C7 at a concrete engine state (score 10-5, Playing). -/
theorem C7_first_to_eleven_wins_witness :
    (lookupA sampleC7Engine.matchesMap "m1" = some sampleC7Match) ∧
    (sampleC7Match.status = MatchStatus.playing) ∧
    (sampleC7Match.gameState.paddles.left.score ≤ 10) ∧
    (sampleC7Match.gameState.paddles.right.score ≤ 10) ∧
    (∃ mm, lookupA (updateGameState "m1" (1000/60) 0 0 sampleC7Engine).matchesMap "m1" =
        some mm ∧
      (mm.gameState.paddles.left.score = 11 →
        mm.status = MatchStatus.completed ∧ mm.winner = some sampleC7Match.players.1) ∧
      (mm.gameState.paddles.right.score = 11 →
        mm.status = MatchStatus.completed ∧ mm.winner = some sampleC7Match.players.2) ∧
      (mm.gameState.paddles.left.score ≤ 10 → mm.gameState.paddles.right.score ≤ 10 →
        mm.status = MatchStatus.playing)) := by
  refine ⟨by decide, rfl, by decide, by decide, ?_⟩
  exact C7_first_to_eleven_wins sampleC7Engine "m1" sampleC7Match (1000/60) 0 0
    (by decide) rfl (by decide) (by decide)

/-! ### C8 -/

/-- With zero time in queue the acceptable band is exactly rating ± 150,
clamped to [800, 3000]. -/
theorem calculateRatingRange_zero (r : ℤ) :
    calculateRatingRange r 0 = { min := max 800 (r - 150), max := min 3000 (r + 150) } := by
  simp [calculateRatingRange]

/-- C8 (confirmed): for ratings in [800,3000] at distance at most 150, a
player enqueueing while the other is queued (with the initial band) is
matched immediately — `addToQueue` returns the pairing match and leaves
both the queue and the expansion-timer table empty. -/
theorem C8_close_ratings_match_immediately (p1 p2 : Player) (e1 e2 : QueueEntry)
    (t1 t2 : ℚ) (freshId : String)
    (h1lo : 800 ≤ p1.rating) (h1hi : p1.rating ≤ 3000)
    (h2lo : 800 ≤ p2.rating) (h2hi : p2.rating ≤ 3000)
    (hdiff : |p1.rating - p2.rating| ≤ 150)
    (hne : p1.userId ≠ p2.userId)
    (he1 : e1 = { toPlayer := p1, joinedAt := t1,
                  ratingRange := calculateRatingRange p1.rating 0 })
    (he2 : e2 = { toPlayer := p2, joinedAt := t2,
                  ratingRange := calculateRatingRange p2.rating 0 }) :
    (addToQueue freshId t2 p2 { queue := [e1], searchTimeouts := [p1.userId] }).1 =
      some (mmCreateMatch freshId t2 e2 e1) ∧
    (addToQueue freshId t2 p2 { queue := [e1], searchTimeouts := [p1.userId] }).2.queue = [] ∧
    (addToQueue freshId t2 p2
        { queue := [e1], searchTimeouts := [p1.userId] }).2.searchTimeouts = [] := by
  subst he1 he2
  have hrange := abs_le.mp hdiff
  have hb12 : (p1.userId != p2.userId) = true := bne_iff_ne.mpr hne
  have hb21 : (p2.userId != p1.userId) = true := bne_iff_ne.mpr (Ne.symm hne)
  have htest : findMatchTest
      { toPlayer := p2, joinedAt := t2, ratingRange := calculateRatingRange p2.rating 0 }
      { toPlayer := p1, joinedAt := t1, ratingRange := calculateRatingRange p1.rating 0 }
        = true := by
    simp only [findMatchTest, calculateRatingRange_zero, Bool.and_eq_true,
      Bool.or_eq_true, decide_eq_true_eq]
    refine ⟨hb12, Or.inl ⟨?_, ?_⟩⟩ <;> omega
  simp [addToQueue, removeFromQueue, setExpandingSearch, findMatch,
    List.filter_cons, List.filter_nil, hb12, hb21, bne_self_eq_false, htest,
    List.find?]

/-- Witness for C8: ratings 1200 and 1300 (difference 100), the first
player queued with the initial band, the second enqueueing. -/
theorem C8_close_ratings_match_immediately_witness :
    (|samplePlayer1.rating - samplePlayer2.rating| ≤ 150) ∧
    (samplePlayer1.userId ≠ samplePlayer2.userId) ∧
    ((addToQueue "m9" 7 samplePlayer2
        { queue := [sampleEntry1], searchTimeouts := [samplePlayer1.userId] }).1 =
      some (mmCreateMatch "m9" 7
        { toPlayer := samplePlayer2, joinedAt := 7,
          ratingRange := calculateRatingRange samplePlayer2.rating 0 }
        sampleEntry1)) ∧
    (addToQueue "m9" 7 samplePlayer2
        { queue := [sampleEntry1], searchTimeouts := [samplePlayer1.userId] }).2.queue = [] := by
  have h := C8_close_ratings_match_immediately samplePlayer1 samplePlayer2 sampleEntry1
    { toPlayer := samplePlayer2, joinedAt := 7,
      ratingRange := calculateRatingRange samplePlayer2.rating 0 }
    0 7 "m9"
    (by norm_num [samplePlayer1]) (by norm_num [samplePlayer1])
    (by norm_num [samplePlayer2]) (by norm_num [samplePlayer2])
    (by norm_num [samplePlayer1, samplePlayer2])
    (by decide)
    (by simp [sampleEntry1, samplePlayer1, calculateRatingRange])
    rfl
  exact ⟨by norm_num [samplePlayer1, samplePlayer2], by decide, h.1, h.2.1⟩

/-! ### C4 -/

theorem matchFoundPerPlayer_events (mtch : GMatch) (p : QueueEntry)
    (s : ServerState) : (matchFoundPerPlayer mtch p s).events =
      s.events ++ [Event.matchFound p.socketId mtch.id] := by
  unfold matchFoundPerPlayer
  cases lookupA s.activeMatches p.socketId <;> rfl

theorem handleMatchFoundOp_events (mtch : GMatch) (now : ℚ) (s : ServerState) :
    (handleMatchFoundOp mtch now s).events =
      s.events ++ [Event.matchFound mtch.players.1.socketId mtch.id,
                   Event.matchFound mtch.players.2.socketId mtch.id] := by
  unfold handleMatchFoundOp
  rw [matchFoundPerPlayer_events, matchFoundPerPlayer_events]
  simp

theorem findMatch_none (freshId : String) (now : ℚ) (e : QueueEntry)
    (st : MMState) (h : (findMatch freshId now e st).1 = none) :
    (findMatch freshId now e st).2 = st := by
  unfold findMatch at *
  cases hf : List.find? (findMatchTest e) st.queue <;> simp [hf] at h ⊢

theorem addToQueue_mem_of_none (freshId : String) (now : ℚ) (p : Player)
    (st : MMState) (h : (addToQueue freshId now p st).1 = none) :
    p.userId ∈ (addToQueue freshId now p st).2.queue.map (fun e => e.userId) := by
  unfold addToQueue at *
  have h2 := findMatch_none _ _ _ _ h
  rw [h2]
  simp [setExpandingSearch]

/-- C4 counterexample: identity `"u1"` is a participant of the active
Playing match `"m1"`, yet its queue-join request is not rejected — the
outcome is a queued acknowledgment, a queue entry for `"u1"` is created,
and no error event is emitted. -/
theorem C4_join_while_in_match_not_rejected :
    (lookupA samplePlayingServer.activeMatches "m1").map (fun m => m.status) =
      some MatchStatus.playing ∧
    samplePlayingGMatch.players.1.userId = "u1" ∧
    (onMatchmakingJoin "m2" 10 "s1" (some samplePlayer1) samplePlayingServer).1 =
      JoinOutcome.queuedOk 1 ∧
    (onMatchmakingJoin "m2" 10 "s1" (some samplePlayer1)
        samplePlayingServer).2.mm.queue.map (fun e => e.userId) = ["u1"] ∧
    (onMatchmakingJoin "m2" 10 "s1" (some samplePlayer1)
        samplePlayingServer).2.events.filter Event.isError = [] := by
  decide

/-- C4 (amended; the handler performs no in-match check): a queue-join for
an identity that is already a participant of an active match is accepted
exactly like any other join — the outcome is never an invalid-state error,
no error event is emitted, and on the queued outcome an entry for the
identity sits in the queue. -/
theorem C4_amended_join_in_match_enqueued (freshId : String) (now : ℚ)
    (socketId : String) (u : Player) (s : ServerState) (matchId : String)
    (m : GMatch) (hm : lookupA s.activeMatches matchId = some m)
    (hpart : m.players.1.userId = u.userId ∨ m.players.2.userId = u.userId) :
    (onMatchmakingJoin freshId now socketId (some u) s).1 ≠ JoinOutcome.userNotFound ∧
    ((onMatchmakingJoin freshId now socketId (some u) s).2.events.filter Event.isError =
      s.events.filter Event.isError) ∧
    (∀ pos, (onMatchmakingJoin freshId now socketId (some u) s).1 =
        JoinOutcome.queuedOk pos →
      u.userId ∈ ((onMatchmakingJoin freshId now socketId (some u) s).2.mm.queue.map
        (fun e => e.userId))) := by
  unfold onMatchmakingJoin
  cases ho : (addToQueue freshId now { u with socketId := socketId } s.mm).1 with
  | some mtch =>
    simp only [ho]
    refine ⟨by simp, ?_, ?_⟩
    · rw [handleMatchFoundOp_events]
      simp [Event.isError]
    · intro pos hpos
      exact absurd hpos (by simp)
  | none =>
    simp only [ho]
    refine ⟨by simp, by simp [Event.isError], ?_⟩
    intro pos hpos
    simpa using addToQueue_mem_of_none freshId now { u with socketId := socketId } s.mm ho

/-- Witness for C4's amended claim at the concrete in-match state. -/
theorem C4_amended_join_in_match_enqueued_witness :
    (lookupA samplePlayingServer.activeMatches "m1" = some samplePlayingGMatch) ∧
    (samplePlayingGMatch.players.1.userId = samplePlayer1.userId) ∧
    ((onMatchmakingJoin "m2" 10 "s1" (some samplePlayer1) samplePlayingServer).1 ≠
      JoinOutcome.userNotFound) ∧
    ((onMatchmakingJoin "m2" 10 "s1" (some samplePlayer1)
        samplePlayingServer).2.events.filter Event.isError =
      samplePlayingServer.events.filter Event.isError) := by
  have h := C4_amended_join_in_match_enqueued "m2" 10 "s1" samplePlayer1
    samplePlayingServer "m1" samplePlayingGMatch (by decide) (Or.inl (by decide))
  exact ⟨by decide, by decide, h.1, h.2.1⟩

/-! ### C5 -/

/-- C5 counterexample: a disconnect pauses the match, but the engine map —
and with it the per-match tick interval — is untouched: the interval is
still live while the match sits Paused. -/
theorem C5_pause_keeps_tick_timer :
    (lookupA samplePlayingServer.engine.matchesMap "m1").map (fun m => m.tickActive) =
      some true ∧
    (lookupA (handlePlayerDisconnect samplePlayingGMatch "alice"
        samplePlayingServer).activeMatches "m1").map (fun m => m.status) =
      some MatchStatus.paused ∧
    (lookupA (handlePlayerDisconnect samplePlayingGMatch "alice"
        samplePlayingServer).engine.matchesMap "m1").map (fun m => m.tickActive) =
      some true := by
  decide

/-- C5 (amended): the tick interval is canceled exactly on the end/remove
paths — `endMatch` (which also marks Completed) clears it and `removeMatch`
deletes the entry — while the pause path `handlePlayerDisconnect` leaves
the engine untouched: a Paused match keeps its scheduled interval and the
tick callback merely skips it via the status check. -/
theorem C5_amended_cancel_only_on_end (E : GameEngine) (matchId : String)
    (m : EngineMatch) (hm : lookupA E.matchesMap matchId = some m) :
    ((lookupA (endMatch matchId E).matchesMap matchId).map (fun mm => mm.status) =
        some MatchStatus.completed ∧
     (lookupA (endMatch matchId E).matchesMap matchId).map (fun mm => mm.tickActive) =
        some false ∧
     lookupA (removeMatch matchId E).matchesMap matchId = none) ∧
    (∀ (mtch : GMatch) (uname : String) (s : ServerState),
      (handlePlayerDisconnect mtch uname s).engine = s.engine ∧
      (lookupA (handlePlayerDisconnect mtch uname s).activeMatches mtch.id).map
          (fun mm => mm.status) = some MatchStatus.paused) := by
  constructor
  · refine ⟨?_, ?_, ?_⟩
    · simp only [endMatch, hm, lookupA_insertA_self, Option.map_some']
    · simp only [endMatch, hm, lookupA_insertA_self, Option.map_some']
    · simp only [removeMatch, lookupA_eraseA_self]
  · intro mtch uname s
    exact ⟨rfl, by simp only [handlePlayerDisconnect, lookupA_insertA_self,
      Option.map_some']⟩

/-- Witness for C5's amended claim at the concrete states. -/
theorem C5_amended_cancel_only_on_end_witness :
    (lookupA samplePlayingEngine.matchesMap "m1" = some samplePlayingMatch) ∧
    (lookupA (endMatch "m1" samplePlayingEngine).matchesMap "m1").map
        (fun mm => mm.tickActive) = some false ∧
    (handlePlayerDisconnect samplePlayingGMatch "alice" samplePlayingServer).engine =
      samplePlayingServer.engine := by
  have h := C5_amended_cancel_only_on_end samplePlayingEngine "m1" samplePlayingMatch
    (by decide)
  exact ⟨by decide, h.1.2.1, (h.2 samplePlayingGMatch "alice" samplePlayingServer).1⟩

/-! ### C9 -/

/-- C9 (confirmed): a participant's disconnect pauses the match and
notifies the room; if the match is still Paused when the 30-second grace
callback fires, the match is ended, removed from the live registry and the
engine, and the room receives `match:ended` with reason
`'player_disconnect'` and the remaining participant reported as winner. -/
theorem C9_disconnect_pause_then_timeout (s : ServerState) (m : GMatch)
    (dSock dName : String)
    (hm : lookupA s.activeMatches m.id = some m)
    (hne : m.players.1.socketId ≠ m.players.2.socketId)
    (hpart : dSock = m.players.1.socketId ∨ dSock = m.players.2.socketId) :
    ((lookupA (handlePlayerDisconnect m dName s).activeMatches m.id).map
        (fun mm => mm.status) = some MatchStatus.paused) ∧
    (Event.playerDisconnected m.roomId dName ∈ (handlePlayerDisconnect m dName s).events) ∧
    (∀ sMid : ServerState,
      (lookupA sMid.activeMatches m.id).map (fun mm => mm.status) =
        some MatchStatus.paused →
      lookupA (graceFire m dSock sMid).activeMatches m.id = none ∧
      lookupA (graceFire m dSock sMid).engine.matchesMap m.id = none ∧
      Event.matchEnded m.roomId "player_disconnect"
          (some (if dSock = m.players.1.socketId then m.players.2.username
                 else m.players.1.username)) ∈ (graceFire m dSock sMid).events) := by
  refine ⟨?_, ?_, ?_⟩
  · simp only [handlePlayerDisconnect, lookupA_insertA_self, Option.map_some']
  · simp [handlePlayerDisconnect]
  · intro sMid hp
    cases hLm : lookupA sMid.activeMatches m.id with
    | none => rw [hLm] at hp; simp at hp
    | some curr =>
      rw [hLm] at hp
      simp only [Option.map_some', Option.some.injEq] at hp
      have hwin :
          (if m.players.1.socketId ≠ dSock then some m.players.1.username
           else if m.players.2.socketId ≠ dSock then some m.players.2.username
           else none) =
          some (if dSock = m.players.1.socketId then m.players.2.username
                else m.players.1.username) := by
        rcases hpart with h | h
        · subst h
          rw [if_neg (by simp), if_pos (Ne.symm hne), if_pos rfl]
        · subst h
          rw [if_pos hne, if_neg (Ne.symm hne)]
      refine ⟨?_, ?_, ?_⟩
      · simp only [graceFire, hLm, if_pos hp, lookupA_eraseA_self]
      · simp only [graceFire, hLm, if_pos hp, removeMatch, lookupA_eraseA_self]
      · simp only [graceFire, hLm, if_pos hp, hwin]
        simp

/-- Witness for C9: the first sample participant disconnects from the
Playing sample match; the grace callback then fires on the paused state. -/
theorem C9_disconnect_pause_then_timeout_witness :
    (lookupA samplePlayingServer.activeMatches "m1" = some samplePlayingGMatch) ∧
    ((lookupA (handlePlayerDisconnect samplePlayingGMatch "alice"
        samplePlayingServer).activeMatches "m1").map (fun mm => mm.status) =
      some MatchStatus.paused) ∧
    (lookupA (graceFire samplePlayingGMatch "s1"
        (handlePlayerDisconnect samplePlayingGMatch "alice"
          samplePlayingServer)).activeMatches "m1" = none) ∧
    Event.matchEnded "game-m1" "player_disconnect" (some "bob") ∈
      (graceFire samplePlayingGMatch "s1"
        (handlePlayerDisconnect samplePlayingGMatch "alice"
          samplePlayingServer)).events := by
  have h := C9_disconnect_pause_then_timeout samplePlayingServer samplePlayingGMatch
    "s1" "alice" (by decide) (by decide) (Or.inl (by decide))
  have h3 := h.2.2 (handlePlayerDisconnect samplePlayingGMatch "alice" samplePlayingServer)
    (by decide)
  refine ⟨by decide, h.1, h3.1, ?_⟩
  have := h3.2.2
  simpa using this
